import Mathlib

/-!
Verification of the OpenClaw gateway client protocol core of AionUi.

This file is a shallow embedding, in Lean 4, of the three components of the
gateway client:

* the device identity manager (`src/agent/openclaw/deviceIdentity.ts`):
  `buildDeviceAuthPayload`, `generateIdentity`, `loadOrCreateDeviceIdentity`;
* the device token store (`src/agent/openclaw/deviceAuthStore.ts`):
  `loadDeviceAuthToken`, `storeDeviceAuthToken`, `clearDeviceAuthToken`;
* the gateway connection (`src/agent/openclaw/OpenClawGatewayConnection.ts`):
  the connect latch (`queueConnect` / `sendConnect`), the event dispatch of
  `handleMessage` (challenge consumption, sequence-gap detection, delivery),
  the token-precedence logic of `sendConnect`, and `scheduleReconnect`.

Conventions of the embedding:

* TypeScript strings are Lean `String`s; `string | null | undefined` fields
  become `Option String`; JavaScript truthiness of such a field ("" , `null`
  and `undefined` are falsy) is `optTruthy`.
* `Array.prototype.join(sep)` is `joinSep`.
* Filesystem state is passed explicitly: a read of the identity or token file
  consumes an explicit file-state value, a write returns the new one.  A file
  whose read or JSON-parse throws is a dedicated constructor (`unreadable`),
  since the source catches those exceptions.
* Cryptographic primitives (SHA-256 fingerprinting of the raw public key,
  Ed25519 signing) are abstracted as function parameters: the claims under
  verification only concern how the source *uses* them, never their internals.
* JavaScript plain objects used as string-keyed tables (`tokens` in the token
  store) are association lists with unique keys; `recGet` / `recSet` /
  `recDel` model property read, property assignment and `delete`.
* Wall-clock reads (`Date.now()`) become explicit `now : Nat` arguments, and
  timers become explicit trigger events fed to step functions.
-/

set_option autoImplicit false

namespace AionUi.OpenClaw

/-- JavaScript truthiness of a `string | null | undefined` value: `null`,
`undefined` and the empty string are falsy. -/
def optTruthy : Option String → Bool
  | none => false
  | some s => s != ""

/-- `Array.prototype.join(sep)`: empty array gives `""`, otherwise the
elements interleaved with the separator. -/
def joinSep (sep : String) : List String → String
  | [] => ""
  | [s] => s
  | s :: rest => s ++ sep ++ joinSep sep rest

/-- `base.join('|')` as in `buildDeviceAuthPayload`. -/
def joinPipe (fields : List String) : String := joinSep "|" fields

/-- `scopes.join(',')` as in `buildDeviceAuthPayload`. -/
def joinComma (fields : List String) : String := joinSep "," fields

/-! ## Device identity (`deviceIdentity.ts`) -/

/-- The TypeScript literal type `'v1' | 'v2'` of the payload `version`
parameter. -/
inductive PayloadVersion where
  | v1
  | v2
deriving DecidableEq, Repr

/-- The wire string of a payload version tag. -/
def PayloadVersion.tag : PayloadVersion → String
  | .v1 => "v1"
  | .v2 => "v2"

/-- `DeviceAuthPayloadParams` from `deviceIdentity.ts` (lines 147-157).
Optional/nullable fields are `Option`s; `token?: string | null` and
`nonce?: string | null` collapse `null` and `undefined` into `none`. -/
structure DeviceAuthPayloadParams where
  deviceId : String
  clientId : String
  clientMode : String
  role : String
  scopes : List String
  signedAtMs : Nat
  token : Option String := none
  nonce : Option String := none
  version : Option PayloadVersion := none
deriving DecidableEq, Repr

/-- The version resolution `params.version ?? (params.nonce ? 'v2' : 'v1')`
of `buildDeviceAuthPayload` (line 163). -/
def resolvePayloadVersion (params : DeviceAuthPayloadParams) : PayloadVersion :=
  params.version.getD (if optTruthy params.nonce then .v2 else .v1)

/-- `buildDeviceAuthPayload` (`deviceIdentity.ts` lines 162-171): the
pipe-joined payload string that the device signature covers. -/
def buildDeviceAuthPayload (params : DeviceAuthPayloadParams) : String :=
  let version := resolvePayloadVersion params
  let scopes := joinComma params.scopes
  let token := params.token.getD ""
  let base := [version.tag, params.deviceId, params.clientId, params.clientMode,
    params.role, scopes, toString params.signedAtMs, token]
  let base' := if version = .v2 then base ++ [params.nonce.getD ""] else base
  joinPipe base'

/-- `DeviceIdentity` from `deviceIdentity.ts` (lines 19-23). -/
structure DeviceIdentity where
  deviceId : String
  publicKeyPem : String
  privateKeyPem : String
deriving DecidableEq, Repr

/-- `StoredIdentity` from `deviceIdentity.ts` (lines 25-31).  The `version`
field is `Nat` so that the `parsed?.version === 1` check stays meaningful. -/
structure StoredIdentity where
  version : Nat
  deviceId : String
  publicKeyPem : String
  privateKeyPem : String
  createdAtMs : Nat
deriving DecidableEq, Repr

/-- State of the identity file at the storage path. `unreadable` covers a
file whose read or `JSON.parse` throws, and content whose required fields
have the wrong runtime types: all of those paths are caught by the source's
`try`/`catch` or rejected by its shape check. -/
inductive IdentityFile where
  | missing
  | unreadable
  | record (s : StoredIdentity)
deriving DecidableEq, Repr

/-- `generateIdentity` (`deviceIdentity.ts` lines 59-65).  The Ed25519 key
generation and the SHA-256 fingerprint of the raw public key are abstracted:
the fresh PEM pair is an input and `fingerprint` stands for
`fingerprintPublicKey`.  The derived identifier is the fingerprint of the
public key, exactly as in the source. -/
def generateIdentity (fingerprint : String → String)
    (publicKeyPem privateKeyPem : String) : DeviceIdentity :=
  { deviceId := fingerprint publicKeyPem, publicKeyPem, privateKeyPem }

/-- `loadOrCreateDeviceIdentity` (`deviceIdentity.ts` lines 75-129), with
the file state passed explicitly and returned alongside the result.
`fingerprint` abstracts `fingerprintPublicKey`; `freshPub`/`freshPriv` are
the PEM pair a fresh key generation would produce; `now` is `Date.now()`.
The source catches every exception of the read path and falls through to
the regeneration path, so the embedding is a total function: `missing`,
`unreadable` and a record failing the `version === 1` shape check all reach
the regeneration branch. -/
def loadOrCreateDeviceIdentity (fingerprint : String → String)
    (freshPub freshPriv : String) (now : Nat) (file : IdentityFile) :
    DeviceIdentity × IdentityFile :=
  let regenerate : DeviceIdentity × IdentityFile :=
    let identity := generateIdentity fingerprint freshPub freshPriv
    (identity,
      IdentityFile.record
        { version := 1
          deviceId := identity.deviceId
          publicKeyPem := identity.publicKeyPem
          privateKeyPem := identity.privateKeyPem
          createdAtMs := now })
  match file with
  | .record parsed =>
    if parsed.version = 1 then
      let derivedId := fingerprint parsed.publicKeyPem
      if derivedId != "" && derivedId != parsed.deviceId then
        let updated : StoredIdentity := { parsed with deviceId := derivedId }
        ({ deviceId := derivedId
           publicKeyPem := parsed.publicKeyPem
           privateKeyPem := parsed.privateKeyPem }, .record updated)
      else
        ({ deviceId := parsed.deviceId
           publicKeyPem := parsed.publicKeyPem
           privateKeyPem := parsed.privateKeyPem }, .record parsed)
    else regenerate
  | .missing => regenerate
  | .unreadable => regenerate

/-! ## Device token store (`deviceAuthStore.ts`) -/

/-- Whitespace trimming at the character level: `String.prototype.trim`
removes leading and trailing whitespace. -/
def trimChars (cs : List Char) : List Char :=
  (((cs.dropWhile Char.isWhitespace).reverse).dropWhile Char.isWhitespace).reverse

/-- `s.trim()`. -/
def trimString (s : String) : String := ⟨trimChars s.data⟩

/-- Lexicographic comparison of character lists by code point, the order
`Array.prototype.sort()` uses on strings. -/
def charListLe : List Char → List Char → Bool
  | [], _ => true
  | _ :: _, [] => false
  | a :: as, b :: bs =>
    if a.toNat < b.toNat then true
    else if b.toNat < a.toNat then false
    else charListLe as bs

/-- String comparison underlying the default sort. -/
def strLe (s t : String) : Bool := charListLe s.data t.data

/-- Insertion into a sorted list of strings. -/
def insertSorted (s : String) : List String → List String
  | [] => [s]
  | t :: rest => if strLe s t then s :: t :: rest else t :: insertSorted s rest

/-- `Array.prototype.sort()` on an array of strings (default lexicographic
comparator). -/
def sortStrings : List String → List String
  | [] => []
  | s :: rest => insertSorted s (sortStrings rest)

/-- `DeviceAuthEntry` from `deviceAuthStore.ts` (lines 20-25). -/
structure DeviceAuthEntry where
  token : String
  role : String
  scopes : List String
  updatedAtMs : Nat
deriving DecidableEq, Repr

/-- `DeviceAuthStore` from `deviceAuthStore.ts` (lines 27-31): the parsed
content of the token file.  The role-keyed object `tokens` is an
association list with unique keys (JavaScript object properties). -/
structure DeviceAuthStoreFile where
  version : Nat
  deviceId : String
  tokens : List (String × DeviceAuthEntry)
deriving DecidableEq, Repr

/-- State of the token file on disk.  `unreadable` covers a read or
`JSON.parse` exception and content that is not an object of the expected
runtime shape (those paths all make `readStore` return `null`). -/
inductive AuthFile where
  | missing
  | unreadable
  | content (s : DeviceAuthStoreFile)
deriving DecidableEq, Repr

/-- Property read `m[k]` on a string-keyed object. -/
def recGet (m : List (String × DeviceAuthEntry)) (k : String) :
    Option DeviceAuthEntry :=
  match m with
  | [] => none
  | (k', v) :: rest => if k' = k then some v else recGet rest k

/-- Property assignment `m[k] = v` on a string-keyed object: replaces the
existing binding or appends a new one. -/
def recSet (m : List (String × DeviceAuthEntry)) (k : String)
    (v : DeviceAuthEntry) : List (String × DeviceAuthEntry) :=
  match m with
  | [] => [(k, v)]
  | (k', v') :: rest =>
    if k' = k then (k, v) :: rest else (k', v') :: recSet rest k v

/-- Property removal `delete m[k]` on a string-keyed object. -/
def recDel (m : List (String × DeviceAuthEntry)) (k : String) :
    List (String × DeviceAuthEntry) :=
  match m with
  | [] => []
  | (k', v') :: rest => if k' = k then rest else (k', v') :: recDel rest k

/-- `normalizeRole` (`deviceAuthStore.ts` lines 43-45): `role.trim()`. -/
def normalizeRole (role : String) : String := trimString role

/-- `normalizeScopes` (`deviceAuthStore.ts` lines 47-59): a missing or
non-array value becomes `[]`; otherwise scopes are trimmed, empties
dropped, duplicates removed keeping first insertion (`Set` semantics) and
the result sorted (`Array.prototype.sort`, lexicographic). -/
def normalizeScopes (scopes : Option (List String)) : List String :=
  match scopes with
  | none => []
  | some list =>
    let deduped := list.foldl
      (fun acc scope =>
        let trimmed := trimString scope
        if trimmed ≠ "" ∧ ¬ acc.contains trimmed then acc ++ [trimmed] else acc)
      []
    sortStrings deduped

/-- `readStore` (`deviceAuthStore.ts` lines 61-78): `null` on a missing or
unreadable file and on a failed shape check (`version === 1`, `deviceId` a
string, `tokens` an object; the latter two are guaranteed by typing here). -/
def readStore (file : AuthFile) : Option DeviceAuthStoreFile :=
  match file with
  | .missing => none
  | .unreadable => none
  | .content s => if s.version = 1 then some s else none

/-- `loadDeviceAuthToken` (`deviceAuthStore.ts` lines 93-108). -/
def loadDeviceAuthToken (file : AuthFile) (deviceId role : String) :
    Option DeviceAuthEntry :=
  match readStore file with
  | none => none
  | some store =>
    if store.deviceId ≠ deviceId then none
    else recGet store.tokens (normalizeRole role)

/-- Parameters of `storeDeviceAuthToken` (`deviceAuthStore.ts` line 113). -/
structure StoreTokenParams where
  deviceId : String
  role : String
  token : String
  scopes : Option (List String) := none
deriving DecidableEq, Repr

/-- `storeDeviceAuthToken` (`deviceAuthStore.ts` lines 113-131): merges
into the existing table only when the file's own `deviceId` matches the
caller's; otherwise starts a fresh table.  `now` is `Date.now()`.  Returns
the entry written and the new file state. -/
def storeDeviceAuthToken (file : AuthFile) (p : StoreTokenParams) (now : Nat) :
    DeviceAuthEntry × AuthFile :=
  let existing := readStore file
  let role := normalizeRole p.role
  let baseTokens : List (String × DeviceAuthEntry) :=
    match existing with
    | some e => if e.deviceId = p.deviceId then e.tokens else []
    | none => []
  let entry : DeviceAuthEntry :=
    { token := p.token
      role := role
      scopes := normalizeScopes p.scopes
      updatedAtMs := now }
  (entry, AuthFile.content
    { version := 1
      deviceId := p.deviceId
      tokens := recSet baseTokens role entry })

/-- `clearDeviceAuthToken` (`deviceAuthStore.ts` lines 136-153): a no-op on
a missing/unreadable file, a `deviceId` mismatch or an absent role entry;
otherwise rewrites the file without that role's entry. -/
def clearDeviceAuthToken (file : AuthFile) (deviceId role : String) : AuthFile :=
  match readStore file with
  | none => file
  | some store =>
    if store.deviceId ≠ deviceId then file
    else
      let r := normalizeRole role
      match recGet store.tokens r with
      | none => file
      | some _ =>
        AuthFile.content
          { version := 1
            deviceId := store.deviceId
            tokens := recDel store.tokens r }

/-! ## Gateway connection (`OpenClawGatewayConnection.ts`)

The handshake- and event-related mutable fields of the
`OpenClawGatewayConnection` class are collected in `ConnState`; the
reconnect-backoff fields in `ReconnectState`.  Timer callbacks become
explicit trigger events.  The liveness bookkeeping (`lastTick`,
`tickIntervalMs`, the tick watchdog) is real-time behaviour outside the
claims under verification and is not modelled. -/

/-- An inbound `Event` frame as far as `handleMessage` inspects it:
the event name, the `nonce` field read off the payload for
`connect.challenge` frames, and the optional numeric `seq`.  Frames are
forwarded to the caller's handler whole, so delivery is recorded as the
frame value itself. -/
structure EventFrame where
  event : String
  payloadNonce : Option String
  seq : Option Int
deriving DecidableEq, Repr

/-- The handshake/event fields of the connection object
(`OpenClawGatewayConnection.ts` lines 44-47): `lastSeq`, `connectNonce`,
`connectSent`, and whether the 750ms fallback `connectTimer` is armed. -/
structure ConnState where
  lastSeq : Option Int
  connectNonce : Option String
  connectSent : Bool
  connectTimerArmed : Bool
deriving DecidableEq, Repr

/-- The field initializers of the class (lines 44-48). -/
def initialConnState : ConnState :=
  { lastSeq := none
    connectNonce := none
    connectSent := false
    connectTimerArmed := false }

/-- The 750ms fallback delay of `queueConnect` (line 391). -/
def connectFallbackDelayMs : Nat := 750

/-- The guard and latch of `sendConnect` (lines 213-222): if the connect
request was already sent, nothing happens; otherwise the latch is set, the
fallback timer cleared, and a connect request carrying the current
`connectNonce` goes out (returned as `some nonce`). -/
def sendConnectLatch (st : ConnState) : ConnState × Option (Option String) :=
  if st.connectSent then (st, none)
  else
    ({ st with connectSent := true, connectTimerArmed := false },
      some st.connectNonce)

/-- `queueConnect` (lines 382-392): reset nonce and latch, rearm the
fallback timer. -/
def queueConnect (st : ConnState) : ConnState :=
  { st with connectNonce := none, connectSent := false, connectTimerArmed := true }

/-- The fallback timer firing: a `setTimeout` callback fires at most once
and only while armed; it then invokes `sendConnect` (lines 389-391). -/
def fireConnectTimer (st : ConnState) : ConnState × Option (Option String) :=
  if st.connectTimerArmed then
    sendConnectLatch { st with connectTimerArmed := false }
  else (st, none)

/-- What handling one inbound event frame produces besides the new state:
whether a gap warning was logged, the frame forwarded to the caller's
`onEvent` handler (if any), and a connect request sent out (if any,
carrying its nonce). -/
structure EventEffects where
  warnGap : Bool
  delivered : Option EventFrame
  sentConnect : Option (Option String)
deriving DecidableEq, Repr

/-- The `event`-frame branch of `handleMessage` (lines 323-354):
`connect.challenge` frames are consumed by the handshake (a truthy nonce is
captured and `sendConnect` invoked, otherwise nothing happens) and never
reach the sequence tracking or the caller's handler; every other event
frame updates the gap-detection counter (warning when `seq` jumps past
`lastSeq + 1`) and is forwarded to the handler. -/
def handleEventFrame (st : ConnState) (evt : EventFrame) :
    ConnState × EventEffects :=
  if evt.event = "connect.challenge" then
    if optTruthy evt.payloadNonce then
      let st1 := { st with connectNonce := evt.payloadNonce }
      let (st2, sent) := sendConnectLatch st1
      (st2, { warnGap := false, delivered := none, sentConnect := sent })
    else
      (st, { warnGap := false, delivered := none, sentConnect := none })
  else
    let warn : Bool :=
      match evt.seq, st.lastSeq with
      | some s, some last => decide (s > last + 1)
      | _, _ => false
    let st1 :=
      match evt.seq with
      | some s => { st with lastSeq := some s }
      | none => st
    (st1, { warnGap := warn, delivered := some evt, sentConnect := none })

/-- Cumulative result of handling a list of inbound event frames. -/
structure RunResult where
  state : ConnState
  delivered : List EventFrame
  gapWarnings : Nat
  connectSends : List (Option String)
deriving DecidableEq, Repr

/-- Handling a list of inbound event frames in arrival order, accumulating
the frames forwarded to the caller's handler, the number of gap warnings
logged, and the connect requests sent. -/
def runEvents (st : ConnState) : List EventFrame → RunResult
  | [] => { state := st, delivered := [], gapWarnings := 0, connectSends := [] }
  | evt :: rest =>
    let (st1, eff) := handleEventFrame st evt
    let r := runEvents st1 rest
    { state := r.state
      delivered := eff.delivered.toList ++ r.delivered
      gapWarnings := (if eff.warnGap then 1 else 0) + r.gapWarnings
      connectSends := eff.sentConnect.toList ++ r.connectSends }

/-- The two triggers armed after the transport opens: an inbound
`connect.challenge` event, or the 750ms fallback timer firing. -/
inductive ConnTrigger where
  | challenge (payloadNonce : Option String)
  | timerFire
deriving DecidableEq, Repr

/-- One trigger hitting the connection: a challenge goes through
`handleMessage`, the timer through its `setTimeout` callback. -/
def triggerStep (st : ConnState) : ConnTrigger → ConnState × Option (Option String)
  | .challenge n =>
    let (st', eff) := handleEventFrame st { event := "connect.challenge", payloadNonce := n, seq := none }
    (st', eff.sentConnect)
  | .timerFire => fireConnectTimer st

/-- The connect requests sent while a list of triggers hits the connection
in order. -/
def runTriggers (st : ConnState) : List ConnTrigger → List (Option String)
  | [] => []
  | t :: rest =>
    let (st', sent) := triggerStep st t
    sent.toList ++ runTriggers st' rest

/-- The nonce that the first effective trigger of the list would put into
the connect request: a timer firing sends with no nonce, a challenge with a
truthy nonce sends that nonce, a challenge with a falsy nonce is inert. -/
def firstEffectiveNonce : List ConnTrigger → Option (Option String)
  | [] => none
  | .timerFire :: _ => some none
  | .challenge n :: rest =>
    if optTruthy n then some n else firstEffectiveNonce rest

/-! ### Reconnect backoff (`scheduleReconnect`, lines 394-414) -/

/-- The reconnect fields of the connection object (lines 40-44). -/
structure ReconnectState where
  backoffMs : Nat
  reconnectAttempts : Nat
  closed : Bool
deriving DecidableEq, Repr

/-- `maxReconnectAttempts` (line 42). -/
def maxReconnectAttempts : Nat := 10

/-- The initial `backoffMs` (line 40), also restored on a successful
connect (line 294). -/
def initialBackoffMs : Nat := 1000

/-- The backoff ceiling (line 409). -/
def backoffCapMs : Nat := 30000

/-- The field initializers of the reconnect state (lines 40-44). -/
def initialReconnectState : ReconnectState :=
  { backoffMs := initialBackoffMs, reconnectAttempts := 0, closed := false }

/-- What one `scheduleReconnect` call does. -/
inductive ReconnectOutcome where
  /-- a retry was scheduled after the given delay -/
  | scheduled (delayMs : Nat)
  /-- the attempt limit was exceeded: a terminal error is surfaced via
  `onConnectError` and nothing is scheduled -/
  | terminalError
  /-- the connection was stopped by the caller: nothing happens -/
  | skipped
deriving DecidableEq, Repr

/-- `scheduleReconnect` (lines 394-414): no-op when stopped; otherwise the
attempt counter is incremented, and either the limit is exceeded (terminal
error, nothing scheduled) or a retry is scheduled after the current
backoff, which then doubles up to the ceiling. -/
def scheduleReconnect (st : ReconnectState) : ReconnectState × ReconnectOutcome :=
  if st.closed then (st, .skipped)
  else
    let attempts := st.reconnectAttempts + 1
    if attempts > maxReconnectAttempts then
      ({ st with reconnectAttempts := attempts }, .terminalError)
    else
      ({ st with reconnectAttempts := attempts
                 backoffMs := min (st.backoffMs * 2) backoffCapMs },
        .scheduled st.backoffMs)

/-- The reset performed by the `connect` success handler (lines 292-295):
backoff and attempt counter return to their initial values. -/
def connectSuccessReset (st : ReconnectState) : ReconnectState :=
  { st with backoffMs := initialBackoffMs, reconnectAttempts := 0 }

/-- The outcomes of `n` consecutive transport closures. -/
def simulateClosures (st : ReconnectState) : Nat → List ReconnectOutcome
  | 0 => []
  | n + 1 =>
    let (st', out) := scheduleReconnect st
    out :: simulateClosures st' n

/-- The reconnect state after `n` consecutive transport closures. -/
def stateAfterClosures (st : ReconnectState) : Nat → ReconnectState
  | 0 => st
  | n + 1 => stateAfterClosures (scheduleReconnect st).1 n

/-! ### Token precedence in `sendConnect` (lines 229-235, 301-315) -/

/-- The auth-token selection of `sendConnect`: the stored device token for
`(deviceId, role)` first, the caller-supplied shared token as fallback, and
the flag remembering whether a later auth failure may clear the stored
token (both a stored and a shared token were truthy). -/
structure ConnectTokenChoice where
  authToken : Option String
  canFallbackToShared : Bool
deriving DecidableEq, Repr

/-- Lines 229-232 of `sendConnect`: `storedToken ?? opts.token` and
`Boolean(storedToken && opts.token)`. -/
def connectTokenChoice (file : AuthFile) (deviceId role : String)
    (optsToken : Option String) : ConnectTokenChoice :=
  let storedToken := (loadDeviceAuthToken file deviceId role).map (·.token)
  { authToken := storedToken.orElse (fun _ => optsToken)
    canFallbackToShared := optTruthy storedToken && optTruthy optsToken }

/-- The `connect`-failure handler (lines 301-315): the stored token for
`(deviceId, role)` is cleared exactly when `canFallbackToShared` was set. -/
def connectFailureCleanup (file : AuthFile) (deviceId role : String)
    (canFallbackToShared : Bool) : AuthFile :=
  if canFallbackToShared then clearDeviceAuthToken file deviceId role else file

/-- The device-auth payload string a connect attempt signs
(`sendConnect` lines 238-249): `buildDeviceAuthPayload` applied to the
resolved client identity, role, scopes, timestamp, selected auth token and
captured nonce, with no `version` override. -/
def connectDevicePayload (deviceId clientId clientMode role : String)
    (scopes : List String) (signedAtMs : Nat) (authToken : Option String)
    (nonce : Option String) : String :=
  buildDeviceAuthPayload
    { deviceId := deviceId
      clientId := clientId
      clientMode := clientMode
      role := role
      scopes := scopes
      signedAtMs := signedAtMs
      token := authToken
      nonce := nonce
      version := none }

/-! ## Spec-side payload constructions (for refinement comparison)

The spec (§4.3) describes the signed payload as the pipe-join of
`[version, deviceId, clientId, clientMode, role, sortedScopesCsv,
signedAtMs, token]` plus `nonce` when present.  `specSortedScopesPayload`
renders that sentence literally (scopes sorted before joining);
`specSuppliedScopesPayload` is the same construction with the scopes joined
in the order supplied, which is what the source actually does. -/

/-- The payload string as the spec's words describe it, with the scopes
comma-joined after sorting (`sortedScopesCsv`). -/
def specSortedScopesPayload (deviceId clientId clientMode role : String)
    (scopes : List String) (signedAtMs : Nat) (token nonce : Option String) :
    String :=
  let fields := [if optTruthy nonce then "v2" else "v1", deviceId, clientId,
    clientMode, role, joinComma (sortStrings scopes), toString signedAtMs,
    token.getD ""]
  joinPipe (fields ++ if optTruthy nonce then [nonce.getD ""] else [])

/-- The payload string with the same field order but the scopes
comma-joined in the order supplied (no sorting). -/
def specSuppliedScopesPayload (deviceId clientId clientMode role : String)
    (scopes : List String) (signedAtMs : Nat) (token nonce : Option String) :
    String :=
  let fields := [if optTruthy nonce then "v2" else "v1", deviceId, clientId,
    clientMode, role, joinComma scopes, toString signedAtMs, token.getD ""]
  joinPipe (fields ++ if optTruthy nonce then [nonce.getD ""] else [])

/-! ## Helper lemmas -/

/-- A payload string starting with the `v1` tag never equals one starting
with the `v2` tag. -/
theorem v1_pipe_ne_v2_pipe (a b : String) : "v1" ++ "|" ++ a ≠ "v2" ++ "|" ++ b := by
  intro h
  have hd : ('v' :: '1' :: '|' :: a.data) = ('v' :: '2' :: '|' :: b.data) :=
    congrArg String.data h
  simp at hd

/-- The payload string always decomposes as the resolved version tag,
a pipe, and the join of the remaining fields. -/
theorem buildDeviceAuthPayload_decomp (p : DeviceAuthPayloadParams) :
    buildDeviceAuthPayload p =
      (resolvePayloadVersion p).tag ++ "|" ++ joinPipe
        ([p.deviceId, p.clientId, p.clientMode, p.role, joinComma p.scopes,
          toString p.signedAtMs, p.token.getD ""] ++
          (if resolvePayloadVersion p = .v2 then [p.nonce.getD ""] else [])) := by
  cases hv : resolvePayloadVersion p <;>
    simp [buildDeviceAuthPayload, hv, PayloadVersion.tag, joinPipe, joinSep]

/-! ## Claim C1 -/

/-- C1, counterexample: the claim says the signed payload's scope field is
the comma-joined *sorted* scopes list.  With scopes supplied as
`["b", "a"]` the connect attempt signs `...|b,a|...` while the spec's
construction yields `...|a,b|...`: the two strings differ. -/
theorem c1_counterexample :
    connectDevicePayload "d" "c" "m" "r" ["b", "a"] 0 none none ≠
      specSortedScopesPayload "d" "c" "m" "r" ["b", "a"] 0 none none := by
  decide

/-- C1, amended: for every connect attempt the device-authentication
signature covers the pipe-joined payload whose fields are, in order:
version, deviceId, clientId, clientMode, role, the comma-joined scopes
list in the order supplied (no sorting is applied), signedAtMs and token,
plus the nonce when a non-empty nonce is present. -/
theorem c1_payload_fields (deviceId clientId clientMode role : String)
    (scopes : List String) (signedAtMs : Nat) (authToken nonce : Option String) :
    connectDevicePayload deviceId clientId clientMode role scopes signedAtMs
        authToken nonce =
      specSuppliedScopesPayload deviceId clientId clientMode role scopes
        signedAtMs authToken nonce := by
  cases hn : optTruthy nonce <;>
    simp [connectDevicePayload, specSuppliedScopesPayload, buildDeviceAuthPayload,
      resolvePayloadVersion, PayloadVersion.tag, hn, joinPipe, joinSep]

/-! ## Claim C2 -/

/-- Payload parameters with a nonce present but an explicit `v1` version
override, as permitted by the `version?: 'v1' | 'v2'` parameter. -/
def noncePresentV1Params : DeviceAuthPayloadParams :=
  { deviceId := "d"
    clientId := "c"
    clientMode := "m"
    role := "r"
    scopes := []
    signedAtMs := 0
    token := none
    nonce := some "abc"
    version := some .v1 }

/-- C2, counterexample: `buildDeviceAuthPayload` takes an optional
`version` override; with `version := 'v1'` and the nonce `"abc"` present,
the output is the `v1`-tagged string `"v1|d|c|m|r||0|"`, not a `v2`-tagged
one — so "a nonce present always produces a v2-tagged payload" fails as a
statement about the function. -/
theorem c2_counterexample :
    noncePresentV1Params.nonce = some "abc" ∧
    resolvePayloadVersion noncePresentV1Params = .v1 ∧
    buildDeviceAuthPayload noncePresentV1Params = "v1|d|c|m|r||0|" :=
  ⟨rfl, rfl, rfl⟩

/-- C2, amended: when no explicit `version` override is supplied,
`buildDeviceAuthPayload` with a non-empty nonce always produces the
`v2`-tagged payload (with the nonce as last field) and with the nonce
absent or empty always the `v1`-tagged payload (without a nonce field);
and no payload built under the resolved `v1` version ever equals one built
under the resolved `v2` version. -/
theorem c2_payload_versioning :
    (∀ p : DeviceAuthPayloadParams, p.version = none → optTruthy p.nonce = true →
      buildDeviceAuthPayload p = "v2" ++ "|" ++ joinPipe
        [p.deviceId, p.clientId, p.clientMode, p.role, joinComma p.scopes,
          toString p.signedAtMs, p.token.getD "", p.nonce.getD ""]) ∧
    (∀ p : DeviceAuthPayloadParams, p.version = none → optTruthy p.nonce = false →
      buildDeviceAuthPayload p = "v1" ++ "|" ++ joinPipe
        [p.deviceId, p.clientId, p.clientMode, p.role, joinComma p.scopes,
          toString p.signedAtMs, p.token.getD ""]) ∧
    (∀ p q : DeviceAuthPayloadParams, resolvePayloadVersion p = .v1 →
      resolvePayloadVersion q = .v2 →
      buildDeviceAuthPayload p ≠ buildDeviceAuthPayload q) := by
  refine ⟨?_, ?_, ?_⟩
  · intro p hv hn
    simp [buildDeviceAuthPayload, resolvePayloadVersion, PayloadVersion.tag, hv, hn,
      joinPipe, joinSep]
  · intro p hv hn
    simp [buildDeviceAuthPayload, resolvePayloadVersion, PayloadVersion.tag, hv, hn,
      joinPipe, joinSep]
  · intro p q hp hq
    rw [buildDeviceAuthPayload_decomp p, buildDeviceAuthPayload_decomp q, hp, hq]
    exact v1_pipe_ne_v2_pipe _ _

/-- C2, witness: the amended statement at concrete inputs. -/
theorem c2_payload_versioning_witness :
    buildDeviceAuthPayload
        { deviceId := "d", clientId := "c", clientMode := "m", role := "r",
          scopes := ["s"], signedAtMs := 1, token := some "t", nonce := some "n" } =
      "v2" ++ "|" ++ joinPipe ["d", "c", "m", "r", "s", "1", "t", "n"] :=
  c2_payload_versioning.1
    { deviceId := "d", clientId := "c", clientMode := "m", role := "r",
      scopes := ["s"], signedAtMs := 1, token := some "t", nonce := some "n" }
    rfl rfl

/-! ## Claim C3 -/

/-- A persisted identity record failing the `version === 1` shape check. -/
def malformedIdentityRecord : StoredIdentity :=
  { version := 2, deviceId := "id", publicKeyPem := "PUB", privateKeyPem := "PRIV", createdAtMs := 0 }

/-- A well-formed persisted identity record (its `deviceId` need not match
any fingerprint). -/
def wellFormedIdentityRecord : StoredIdentity :=
  { version := 1, deviceId := "old", publicKeyPem := "PUB", privateKeyPem := "PRIV", createdAtMs := 0 }

/-- The fresh identity of the regeneration path in the counterexample. -/
def freshIdentityCtx : DeviceIdentity :=
  { deviceId := "fp", publicKeyPem := "NEWPUB", privateKeyPem := "NEWPRIV" }

/-- C3, counterexample: the claim says storage failures are fatal and the
keypair of an existing record is never silently regenerated.  But
`loadOrCreateDeviceIdentity` catches every read error and falls through to
regeneration: on an unreadable file it returns a freshly generated
identity, and on an existing record failing the `version === 1` check it
discards the record's keypair (`PUB`/`PRIV`) and returns the freshly
generated one (`NEWPUB`/`NEWPRIV`) — no error in either case. -/
theorem c3_counterexample :
    (loadOrCreateDeviceIdentity (fun _ => "fp") "NEWPUB" "NEWPRIV" 7
        .unreadable).1 = freshIdentityCtx ∧
    (loadOrCreateDeviceIdentity (fun _ => "fp") "NEWPUB" "NEWPRIV" 7
        (.record malformedIdentityRecord)).1 = freshIdentityCtx ∧
    malformedIdentityRecord.privateKeyPem ≠ freshIdentityCtx.privateKeyPem :=
  ⟨rfl, rfl, by decide⟩

/-- C3, amended: for a well-formed (version-1) persisted record the
existing keypair is always preserved, whatever the fingerprint check
yields; but a failure reading identity storage, or malformed content, is
*not* fatal to startup — the manager silently falls back to generating and
persisting a fresh identity. -/
theorem c3_keypair_preservation (fingerprint : String → String)
    (freshPub freshPriv : String) (now : Nat) (parsed : StoredIdentity)
    (hv : parsed.version = 1) :
    ((loadOrCreateDeviceIdentity fingerprint freshPub freshPriv now
        (.record parsed)).1.publicKeyPem = parsed.publicKeyPem ∧
      (loadOrCreateDeviceIdentity fingerprint freshPub freshPriv now
        (.record parsed)).1.privateKeyPem = parsed.privateKeyPem) ∧
    (loadOrCreateDeviceIdentity fingerprint freshPub freshPriv now
        .unreadable).1 = generateIdentity fingerprint freshPub freshPriv := by
  refine ⟨?_, rfl⟩
  simp only [loadOrCreateDeviceIdentity, hv, if_true]
  split <;> simp

/-- C3, witness: the amended statement at concrete inputs. -/
theorem c3_keypair_preservation_witness :
    ((loadOrCreateDeviceIdentity (fun _ => "fp") "NEWPUB" "NEWPRIV" 7
        (.record wellFormedIdentityRecord)).1.publicKeyPem =
          wellFormedIdentityRecord.publicKeyPem ∧
      (loadOrCreateDeviceIdentity (fun _ => "fp") "NEWPUB" "NEWPRIV" 7
        (.record wellFormedIdentityRecord)).1.privateKeyPem =
          wellFormedIdentityRecord.privateKeyPem) ∧
    (loadOrCreateDeviceIdentity (fun _ => "fp") "NEWPUB" "NEWPRIV" 7
        .unreadable).1 = generateIdentity (fun _ => "fp") "NEWPUB" "NEWPRIV" :=
  c3_keypair_preservation (fun _ => "fp") "NEWPUB" "NEWPRIV" 7
    wellFormedIdentityRecord rfl

/-! ## Claim C8 -/

/-- A concrete stand-in for the SHA-256 fingerprint, used in witnesses:
injective on the keys involved and never empty. -/
def fingerprintHash (publicKeyPem : String) : String := "fp:" ++ publicKeyPem

/-- C8: the returned identity always satisfies `deviceId =
fingerprint publicKey` — for a freshly generated keypair, after the written
record is loaded back (round trip), and for a persisted record whose
`deviceId` does not match the fingerprint of its stored public key, which
is rewritten with the corrected `deviceId` while the existing keypair is
preserved. -/
theorem c8_deviceId_fingerprint (fingerprint : String → String)
    (freshPub freshPriv : String) (now now2 : Nat) (parsed : StoredIdentity)
    (hv : parsed.version = 1)
    (hfz : fingerprint parsed.publicKeyPem ≠ "")
    (hmis : fingerprint parsed.publicKeyPem ≠ parsed.deviceId) :
    ((loadOrCreateDeviceIdentity fingerprint freshPub freshPriv now
        .missing).1.deviceId =
      fingerprint (loadOrCreateDeviceIdentity fingerprint freshPub freshPriv now
        .missing).1.publicKeyPem) ∧
    ((loadOrCreateDeviceIdentity fingerprint freshPub freshPriv now2
        (loadOrCreateDeviceIdentity fingerprint freshPub freshPriv now
          .missing).2).1 =
      (loadOrCreateDeviceIdentity fingerprint freshPub freshPriv now
        .missing).1) ∧
    ((loadOrCreateDeviceIdentity fingerprint freshPub freshPriv now
        (.record parsed)).1 =
      { deviceId := fingerprint parsed.publicKeyPem
        publicKeyPem := parsed.publicKeyPem
        privateKeyPem := parsed.privateKeyPem } ∧
      (loadOrCreateDeviceIdentity fingerprint freshPub freshPriv now
        (.record parsed)).2 =
      .record { parsed with deviceId := fingerprint parsed.publicKeyPem }) := by
  refine ⟨rfl, ?_, ?_, ?_⟩
  · simp [loadOrCreateDeviceIdentity, generateIdentity]
  · simp [loadOrCreateDeviceIdentity, hv, bne_iff_ne, hfz, hmis]
  · simp [loadOrCreateDeviceIdentity, hv, bne_iff_ne, hfz, hmis]

/-- C8, witness: the statement at concrete inputs. -/
theorem c8_deviceId_fingerprint_witness :
    (fingerprintHash "PUB" ≠ "" ∧ fingerprintHash "PUB" ≠ "old") ∧
    (loadOrCreateDeviceIdentity fingerprintHash "NEWPUB" "NEWPRIV" 3
        (.record wellFormedIdentityRecord)).1 =
      { deviceId := fingerprintHash "PUB", publicKeyPem := "PUB", privateKeyPem := "PRIV" } :=
  ⟨⟨by decide, by decide⟩,
    (c8_deviceId_fingerprint fingerprintHash "NEWPUB" "NEWPRIV" 3 4
      wellFormedIdentityRecord rfl (by decide) (by decide)).2.2.1⟩

/-! ## Association-list lemmas for the token table -/

theorem recGet_recSet_self (m : List (String × DeviceAuthEntry)) (k : String)
    (v : DeviceAuthEntry) : recGet (recSet m k v) k = some v := by
  induction m with
  | nil => simp [recSet, recGet]
  | cons hd tl ih =>
    obtain ⟨k', v'⟩ := hd
    by_cases h : k' = k <;> simp [recSet, recGet, h, ih]

theorem recGet_recSet_ne (m : List (String × DeviceAuthEntry)) (k k' : String)
    (v : DeviceAuthEntry) (h : k ≠ k') :
    recGet (recSet m k v) k' = recGet m k' := by
  induction m with
  | nil => simp [recSet, recGet, h]
  | cons hd tl ih =>
    obtain ⟨k0, v0⟩ := hd
    by_cases h0 : k0 = k
    · subst h0
      simp [recSet, recGet, h]
    · simp [recSet, recGet, h0, ih]

theorem recGet_eq_none_of_not_mem (m : List (String × DeviceAuthEntry))
    (k : String) (h : k ∉ m.map Prod.fst) : recGet m k = none := by
  induction m with
  | nil => rfl
  | cons hd tl ih =>
    obtain ⟨k', v'⟩ := hd
    simp only [List.map_cons, List.mem_cons] at h
    push_neg at h
    have hne : ¬ k' = k := fun he => h.1 he.symm
    simp [recGet, hne, ih h.2]

theorem recGet_recDel_self (m : List (String × DeviceAuthEntry)) (k : String)
    (h : (m.map Prod.fst).Nodup) : recGet (recDel m k) k = none := by
  induction m with
  | nil => rfl
  | cons hd tl ih =>
    obtain ⟨k', v'⟩ := hd
    simp only [List.map_cons, List.nodup_cons] at h
    by_cases he : k' = k
    · subst he
      simp [recDel, recGet_eq_none_of_not_mem tl k' h.1]
    · simp [recDel, recGet, he, ih h.2]

/-! ## Claim C9 -/

/-- C9: two stores under the same `deviceId` for (trim-)distinct roles
leave both entries independently retrievable for their respective roles,
each with its own token, normalized role and normalized scopes; a store
under a different `deviceId` starts a fresh table holding only the new
entry, discarding all prior entries. -/
theorem c9_token_scoping (file : AuthFile) (dA dB rA rB rC tA tB tC : String)
    (sA sB sC : Option (List String)) (n1 n2 n3 : Nat)
    (hrole : normalizeRole rA ≠ normalizeRole rB)
    (hdev : dB ≠ dA) :
    loadDeviceAuthToken
        (storeDeviceAuthToken
          (storeDeviceAuthToken file
            { deviceId := dA, role := rA, token := tA, scopes := sA } n1).2
          { deviceId := dA, role := rB, token := tB, scopes := sB } n2).2
        dA rA =
      some ⟨tA, normalizeRole rA, normalizeScopes sA, n1⟩ ∧
    loadDeviceAuthToken
        (storeDeviceAuthToken
          (storeDeviceAuthToken file
            { deviceId := dA, role := rA, token := tA, scopes := sA } n1).2
          { deviceId := dA, role := rB, token := tB, scopes := sB } n2).2
        dA rB =
      some ⟨tB, normalizeRole rB, normalizeScopes sB, n2⟩ ∧
    (storeDeviceAuthToken
        (storeDeviceAuthToken
          (storeDeviceAuthToken file
            { deviceId := dA, role := rA, token := tA, scopes := sA } n1).2
          { deviceId := dA, role := rB, token := tB, scopes := sB } n2).2
        { deviceId := dB, role := rC, token := tC, scopes := sC } n3).2 =
      .content ⟨1, dB, [(normalizeRole rC,
        ⟨tC, normalizeRole rC, normalizeScopes sC, n3⟩)]⟩ := by
  refine ⟨?_, ?_, ?_⟩
  · simp [storeDeviceAuthToken, loadDeviceAuthToken, readStore,
      recGet_recSet_ne _ _ _ _ (Ne.symm hrole), recGet_recSet_self]
  · simp [storeDeviceAuthToken, loadDeviceAuthToken, readStore, recGet_recSet_self]
  · simp [storeDeviceAuthToken, readStore, Ne.symm hdev, recSet]

/-- C9, witness: the statement at concrete inputs, with concrete roles
`"a"`, `"b"`, `"c"`, device ids `"d1"`, `"d2"` and a missing initial
file. -/
theorem c9_token_scoping_witness :
    normalizeRole "a" ≠ normalizeRole "b" ∧
    loadDeviceAuthToken
        (storeDeviceAuthToken
          (storeDeviceAuthToken .missing
            { deviceId := "d1", role := "a", token := "TA", scopes := none } 1).2
          { deviceId := "d1", role := "b", token := "TB", scopes := none } 2).2
        "d1" "a" =
      some ⟨"TA", normalizeRole "a", normalizeScopes none, 1⟩ :=
  ⟨by decide,
    (c9_token_scoping .missing "d1" "d2" "a" "b" "c" "TA" "TB" "TC"
      none none none 1 2 3 (by decide) (by decide)).1⟩

/-! ## Claim C5 -/

/-- C5: with a stored device token present for the target
`(deviceId, role)` (in a well-formed table with unique role keys) and a
caller-supplied shared token also present, the connect request carries the
stored token (priority), the fallback flag is set, and after a connect
failure the cleanup clears the stored entry so the next attempt's choice
carries the shared token. -/
theorem c5_token_precedence (store : DeviceAuthStoreFile)
    (deviceId role shared : String) (entry : DeviceAuthEntry)
    (hv : store.version = 1) (hid : store.deviceId = deviceId)
    (hentry : recGet store.tokens (normalizeRole role) = some entry)
    (hkeys : (store.tokens.map Prod.fst).Nodup)
    (htok : entry.token ≠ "") (hshared : shared ≠ "") :
    (connectTokenChoice (.content store) deviceId role (some shared)).authToken =
      some entry.token ∧
    (connectTokenChoice (.content store) deviceId role
      (some shared)).canFallbackToShared = true ∧
    loadDeviceAuthToken
      (connectFailureCleanup (.content store) deviceId role
        (connectTokenChoice (.content store) deviceId role
          (some shared)).canFallbackToShared)
      deviceId role = none ∧
    (connectTokenChoice
        (connectFailureCleanup (.content store) deviceId role
          (connectTokenChoice (.content store) deviceId role
            (some shared)).canFallbackToShared)
        deviceId role (some shared)).authToken = some shared := by
  have hload : loadDeviceAuthToken (.content store) deviceId role = some entry := by
    simp [loadDeviceAuthToken, readStore, hv, hid, hentry]
  have hchoice :
      (connectTokenChoice (.content store) deviceId role
        (some shared)).canFallbackToShared = true := by
    simp [connectTokenChoice, hload, optTruthy, htok, hshared]
  have hclear :
      connectFailureCleanup (.content store) deviceId role true =
        .content ⟨1, store.deviceId, recDel store.tokens (normalizeRole role)⟩ := by
    simp [connectFailureCleanup, clearDeviceAuthToken, readStore, hv, hid, hentry]
  have hload2 :
      loadDeviceAuthToken
        (connectFailureCleanup (.content store) deviceId role true)
        deviceId role = none := by
    rw [hclear]
    simp [loadDeviceAuthToken, readStore, hid, recGet_recDel_self _ _ hkeys]
  refine ⟨?_, hchoice, ?_, ?_⟩
  · simp [connectTokenChoice, hload, Option.orElse]
  · rw [hchoice]
    exact hload2
  · rw [hchoice]
    simp [connectTokenChoice, hload2, Option.orElse]

/-- A concrete well-formed token table holding the stored token `T1` for
role `operator`, used in the C5 witness. -/
def storedTableCtx : DeviceAuthStoreFile :=
  ⟨1, "dev", [("operator", ⟨"T1", "operator", [], 0⟩)]⟩

/-- C5, witness: the statement at concrete inputs. -/
theorem c5_token_precedence_witness :
    (connectTokenChoice (.content storedTableCtx) "dev" "operator"
      (some "SHARED")).authToken = some "T1" ∧
    (connectTokenChoice
        (connectFailureCleanup (.content storedTableCtx) "dev" "operator"
          (connectTokenChoice (.content storedTableCtx) "dev" "operator"
            (some "SHARED")).canFallbackToShared)
        "dev" "operator" (some "SHARED")).authToken = some "SHARED" := by
  have h := c5_token_precedence storedTableCtx "dev" "operator" "SHARED"
    ⟨"T1", "operator", [], 0⟩ rfl rfl (by decide) (by decide) (by decide) (by decide)
  exact ⟨h.1, h.2.2.2⟩

/-! ## Claim C4 -/

/-- Handling any run of non-challenge event frames forwards every frame to
the caller's handler in arrival order and never sends a frame out. -/
theorem runEvents_delivers_all (st : ConnState) (evts : List EventFrame)
    (h : ∀ e ∈ evts, e.event ≠ "connect.challenge") :
    (runEvents st evts).delivered = evts ∧
    (runEvents st evts).connectSends = [] := by
  induction evts generalizing st with
  | nil => exact ⟨rfl, rfl⟩
  | cons e rest ih =>
    have he := h e (List.mem_cons_self _ _)
    have hrest : ∀ e' ∈ rest, e'.event ≠ "connect.challenge" :=
      fun e' hm => h e' (List.mem_cons_of_mem _ hm)
    cases hs : e.seq <;>
      simp [runEvents, handleEventFrame, he, hs,
        (ih _ hrest).1, (ih _ hrest).2]

/-- C4: starting with no sequence seen, delivering three non-challenge
events with `seq` 1, 2, 5 logs exactly one gap warning (the 2→5 jump),
still forwards all three frames to the handler in arrival order, sends
nothing out (no retransmission request), and leaves 5 as the last-seen
sequence value. -/
theorem c4_gap_detection (st : ConnState) (e1 e2 e3 : EventFrame)
    (hs1 : e1.seq = some 1) (hs2 : e2.seq = some 2) (hs3 : e3.seq = some 5)
    (he1 : e1.event ≠ "connect.challenge")
    (he2 : e2.event ≠ "connect.challenge")
    (he3 : e3.event ≠ "connect.challenge")
    (hst : st.lastSeq = none) :
    (runEvents st [e1, e2, e3]).gapWarnings = 1 ∧
    (runEvents st [e1, e2, e3]).delivered = [e1, e2, e3] ∧
    (runEvents st [e1, e2, e3]).connectSends = [] ∧
    (runEvents st [e1, e2, e3]).state.lastSeq = some 5 := by
  obtain ⟨ev1, p1, s1⟩ := e1
  obtain ⟨ev2, p2, s2⟩ := e2
  obtain ⟨ev3, p3, s3⟩ := e3
  simp only at hs1 hs2 hs3 he1 he2 he3
  subst hs1 hs2 hs3
  refine ⟨?_, ?_, ?_, ?_⟩ <;>
    simp [runEvents, handleEventFrame, he1, he2, he3, hst]

/-- C4, witness: the statement at concrete frames and the fresh connection
state. -/
theorem c4_gap_detection_witness :
    (runEvents initialConnState
      [⟨"chat", none, some 1⟩, ⟨"chat", none, some 2⟩,
        ⟨"chat", none, some 5⟩]).gapWarnings = 1 ∧
    (runEvents initialConnState
      [⟨"chat", none, some 1⟩, ⟨"chat", none, some 2⟩,
        ⟨"chat", none, some 5⟩]).delivered =
      [⟨"chat", none, some 1⟩, ⟨"chat", none, some 2⟩,
        ⟨"chat", none, some 5⟩] ∧
    (runEvents initialConnState
      [⟨"chat", none, some 1⟩, ⟨"chat", none, some 2⟩,
        ⟨"chat", none, some 5⟩]).connectSends = [] ∧
    (runEvents initialConnState
      [⟨"chat", none, some 1⟩, ⟨"chat", none, some 2⟩,
        ⟨"chat", none, some 5⟩]).state.lastSeq = some 5 :=
  c4_gap_detection initialConnState ⟨"chat", none, some 1⟩
    ⟨"chat", none, some 2⟩ ⟨"chat", none, some 5⟩ rfl rfl rfl
    (by decide) (by decide) (by decide) rfl

/-! ## Claim C7 -/

/-- How `handleMessage` treats a `connect.challenge` frame, in closed
form: a truthy nonce is captured and `sendConnect` runs (sending only if
the latch was clear), a falsy nonce leaves everything untouched. -/
theorem handleEventFrame_challenge (st : ConnState) (n : Option String)
    (s : Option Int) :
    handleEventFrame st ⟨"connect.challenge", n, s⟩ =
      if optTruthy n then
        if st.connectSent then ({ st with connectNonce := n }, ⟨false, none, none⟩)
        else ({ st with connectNonce := n, connectSent := true, connectTimerArmed := false }, ⟨false, none, some n⟩)
      else (st, ⟨false, none, none⟩) := by
  by_cases hn : optTruthy n <;> by_cases hc : st.connectSent <;>
    simp [handleEventFrame, sendConnectLatch, hn, hc]

/-- Once the connect request has been sent, no trigger sequence can ever
make the connection send another one. -/
theorem runTriggers_of_sent (st : ConnState) (hs : st.connectSent = true)
    (ts : List ConnTrigger) : runTriggers st ts = [] := by
  induction ts generalizing st with
  | nil => rfl
  | cons t rest ih =>
    cases t with
    | challenge n =>
      cases hn : optTruthy n
      · simpa [runTriggers, triggerStep, handleEventFrame_challenge, hn]
          using ih _ hs
      · simp [runTriggers, triggerStep, handleEventFrame_challenge, hn, hs]
        exact ih _ rfl
    | timerFire =>
      cases ha : st.connectTimerArmed
      · simpa [runTriggers, triggerStep, fireConnectTimer, ha] using ih _ hs
      · simp [runTriggers, triggerStep, fireConnectTimer, sendConnectLatch,
          ha, hs]
        exact ih _ rfl

/-- From the state `queueConnect` leaves behind (latch clear, fallback
timer armed, no nonce), an arbitrary trigger sequence produces exactly the
connect request of its first effective trigger — and none at all if no
trigger is effective. -/
theorem runTriggers_fresh (st : ConnState) (hs : st.connectSent = false)
    (ha : st.connectTimerArmed = true) (hn : st.connectNonce = none)
    (ts : List ConnTrigger) :
    runTriggers st ts = (firstEffectiveNonce ts).toList := by
  induction ts generalizing st with
  | nil => rfl
  | cons t rest ih =>
    cases t with
    | challenge n =>
      cases hnn : optTruthy n
      · simpa [runTriggers, triggerStep, handleEventFrame_challenge, hnn,
          firstEffectiveNonce] using ih _ hs ha hn
      · simp [runTriggers, triggerStep, handleEventFrame_challenge, hnn, hs,
          firstEffectiveNonce]
        exact runTriggers_of_sent _ rfl rest
    | timerFire =>
      simp [runTriggers, triggerStep, fireConnectTimer, sendConnectLatch,
        ha, hs, hn, firstEffectiveNonce]
      exact runTriggers_of_sent _ rfl rest

/-- C7: after `queueConnect` rearms the handshake, any interleaving of the
two triggers (challenge events and the fallback-timer firing) sends the
connect request at most once: exactly the first effective trigger sends,
carrying its nonce for a challenge and no nonce for the timer, and no
second connect request is ever sent; the fallback timer delay is 750ms. -/
theorem c7_connect_once (st : ConnState) (ts : List ConnTrigger) :
    runTriggers (queueConnect st) ts = (firstEffectiveNonce ts).toList ∧
    connectFallbackDelayMs = 750 :=
  ⟨runTriggers_fresh (queueConnect st) rfl rfl rfl ts, rfl⟩

/-! ## Claim C10 -/

/-- C10: a `connect.challenge` event frame is consumed internally: it is
never forwarded to the caller's `onEvent` handler, never logs a gap
warning, and never updates the gap-detection sequence counter — even when
the frame carries a `seq`; and when its payload lacks a truthy nonce it
triggers no connect send at all and leaves the state untouched. -/
theorem c10_challenge_consumed (st : ConnState) (n : Option String)
    (s : Option Int) :
    (handleEventFrame st ⟨"connect.challenge", n, s⟩).2.delivered = none ∧
    (handleEventFrame st ⟨"connect.challenge", n, s⟩).2.warnGap = false ∧
    (handleEventFrame st ⟨"connect.challenge", n, s⟩).1.lastSeq = st.lastSeq ∧
    (optTruthy n = false →
      (handleEventFrame st ⟨"connect.challenge", n, s⟩).2.sentConnect = none ∧
      (handleEventFrame st ⟨"connect.challenge", n, s⟩).1 = st) := by
  by_cases hn : optTruthy n <;> by_cases hc : st.connectSent <;>
    simp [handleEventFrame_challenge, hn, hc]

/-- C10, witness: a challenge frame carrying `seq := 3` and no nonce, at
the fresh connection state. -/
theorem c10_challenge_consumed_witness :
    (handleEventFrame initialConnState
      ⟨"connect.challenge", none, some 3⟩).2.delivered = none ∧
    (handleEventFrame initialConnState
      ⟨"connect.challenge", none, some 3⟩).1.lastSeq =
        initialConnState.lastSeq ∧
    (handleEventFrame initialConnState
      ⟨"connect.challenge", none, some 3⟩).2.sentConnect = none :=
  ⟨(c10_challenge_consumed initialConnState none (some 3)).1,
    (c10_challenge_consumed initialConnState none (some 3)).2.2.1,
    ((c10_challenge_consumed initialConnState none (some 3)).2.2.2 rfl).1⟩

/-! ## Claim C6 -/

/-- After the attempt counter has reached the maximum, every further
transport closure surfaces a terminal error and never schedules another
attempt. -/
theorem simulateClosures_exhausted (m : Nat) :
    ∀ st : ReconnectState, st.closed = false →
      maxReconnectAttempts ≤ st.reconnectAttempts →
      simulateClosures st m = List.replicate m .terminalError := by
  induction m with
  | zero => intro st hc hmax; rfl
  | succ k ih =>
    intro st hc hmax
    have hgt : st.reconnectAttempts + 1 > maxReconnectAttempts :=
      Nat.lt_succ_of_le hmax
    simp [simulateClosures, scheduleReconnect, hc, hgt, List.replicate_succ]
    exact ih _ rfl (Nat.le_succ_of_le hmax)

/-- C6: starting from the initial reconnect state, the first ten
consecutive closures schedule retries whose delays start at the 1s base
and double each attempt up to the 30s ceiling
(`min (1000 * 2 ^ i) 30000`); once the attempt counter exceeds the
maximum of 10, every further closure surfaces a terminal error and
schedules nothing; and a successful connect resets both the attempt
counter and the backoff to their initial values. -/
theorem c6_backoff_policy :
    (∀ n, n ≤ 10 → simulateClosures initialReconnectState n =
      (List.range n).map (fun i =>
        ReconnectOutcome.scheduled (min (initialBackoffMs * 2 ^ i) backoffCapMs))) ∧
    (∀ m, simulateClosures (stateAfterClosures initialReconnectState 10) m =
      List.replicate m ReconnectOutcome.terminalError) ∧
    (∀ st, connectSuccessReset st =
      { st with backoffMs := initialBackoffMs, reconnectAttempts := 0 }) := by
  refine ⟨by decide, ?_, fun st => rfl⟩
  intro m
  exact simulateClosures_exhausted m (stateAfterClosures initialReconnectState 10)
    rfl (by decide)

/-- C6, witness: the statement at concrete attempt counts — seven closures
produce the doubling-then-capped delays 1s, 2s, 4s, 8s, 16s, 30s, 30s, and
after ten closures two further closures both surface terminal errors. -/
theorem c6_backoff_policy_witness :
    simulateClosures initialReconnectState 7 =
      [ReconnectOutcome.scheduled 1000, ReconnectOutcome.scheduled 2000,
        ReconnectOutcome.scheduled 4000, ReconnectOutcome.scheduled 8000,
        ReconnectOutcome.scheduled 16000, ReconnectOutcome.scheduled 30000,
        ReconnectOutcome.scheduled 30000] ∧
    simulateClosures (stateAfterClosures initialReconnectState 10) 2 =
      [ReconnectOutcome.terminalError, ReconnectOutcome.terminalError] := by
  constructor
  · have h := c6_backoff_policy.1 7 (by decide)
    rw [h]
    decide
  · have h := c6_backoff_policy.2.1 2
    rw [h]
    decide

end AionUi.OpenClaw
